import Mathlib

/-!
Shallow embedding of the essay-writing platform (src/app.py, src/models.py).

Modelling conventions:
* Time is measured in minutes as `Int`; `datetime.utcnow()` is a parameter
  `now`, `timedelta(minutes=m)` is plain integer arithmetic.
* The external pyspellchecker engine is a black box `SpellChecker` with a
  dictionary-membership test `known` (applied to lowercased words, as the
  library does) and a `correction` function, per the spec's out-of-scope rule.
  `spell.unknown(words)` lowercases each word and keeps those not known,
  as a set (modelled as a first-occurrence-deduplicated list).
* The SQLAlchemy store is a `List Essay`; the autoincrement primary key the
  database would assign is the parameter `nextId`; `Essay.query.filter`
  is `List.filter` and `order_by(timestamp.desc())` a sort by the
  relation `tsGe`.
* Flask form/query access: a field is `Option String`; Python falsiness of
  `request.form.get('text')` is `formFalsy`; `request.form.get(k, 0, type=int)`
  is `formGetInt` (default on missing or unparsable value).
* HTTP responses are tuples `(status, payload)`.
-/

/-- Data model of `src/models.py` (class `Essay`): id primary key,
original and corrected text, timestamp, and the three session counters. -/
structure Essay where
  id : Nat
  original_text : String
  corrected_text : String
  timestamp : Int
  word_count : Int
  paragraph_count : Int
  backspace_count : Int
deriving DecidableEq, Repr

/-- Black-box interface of the external pyspellchecker engine. -/
structure SpellChecker where
  known : String → Bool
  correction : String → String

/-- Split a character list at every character satisfying `p` (separators are
dropped, empty pieces kept, as Python `re.split` and `str.split` see them
before filtering). -/
def splitChars (p : Char → Bool) : List Char → List Char → List (List Char)
  | [], cur => [cur.reverse]
  | c :: cs, cur =>
    if p c then cur.reverse :: splitChars p cs [] else splitChars p cs (c :: cur)

/-- Python `str.split()` with no arguments: split on whitespace runs,
dropping empty pieces. -/
def pySplit (s : String) : List String :=
  ((splitChars (fun c => c.isWhitespace) s.data []).map String.mk).filter
    (fun w => ¬ w.data.isEmpty)

/-- Python regex word character `\w` (ASCII view): alphanumeric or underscore. -/
def isWordChar (c : Char) : Bool := c.isAlphanum || c = '_'

/-- Python `re.findall(r'\b\w+\b', s)`: the maximal runs of word characters. -/
def findWords (s : String) : List String :=
  ((splitChars (fun c => ¬ isWordChar c) s.data []).map String.mk).filter
    (fun w => ¬ w.data.isEmpty)

/-- Python `str.lower()` (ASCII view): lowercase every character. -/
def pyLower (s : String) : String := String.mk (s.data.map Char.toLower)

/-- Python `sep.join(words)`. -/
def pyJoin (sep : String) : List String → String
  | [] => ""
  | [w] => w
  | w :: ws => w ++ sep ++ pyJoin sep ws

/-- Python `re.sub(r'[^\w\s]', '', word)`: delete every character that is
neither a word character nor whitespace. -/
def pySubClean (word : String) : String :=
  String.mk (word.toList.filter (fun c => isWordChar c || c.isWhitespace))

/-- Python `str.istitle()`: uppercase letters only start cased runs, lowercase
letters only continue them, and at least one cased letter occurs. -/
def pyIstitleAux : List Char → Bool → Bool → Bool
  | [], _, cased => cased
  | c :: cs, prevCased, cased =>
    if c.isUpper then
      if prevCased then false else pyIstitleAux cs true true
    else if c.isLower then
      if prevCased then pyIstitleAux cs true true else false
    else
      pyIstitleAux cs false cased

def pyIstitle (s : String) : Bool := pyIstitleAux s.toList false false

/-- Python `str.title()`: first letter of each alphabetic run uppercased,
the rest lowercased. -/
def pyTitleAux : List Char → Bool → List Char
  | [], _ => []
  | c :: cs, prevCased =>
    if c.isAlpha then
      (if prevCased then c.toLower else c.toUpper) :: pyTitleAux cs true
    else
      c :: pyTitleAux cs false

def pyTitle (s : String) : String := String.mk (pyTitleAux s.toList false)

/-- First-occurrence deduplication: the iteration view of a Python set built
from a list. -/
def eraseDupsFirst (l : List String) : List String :=
  l.foldl (fun acc x => if x ∈ acc then acc else acc ++ [x]) []

/-- `spell.unknown(words)` of pyspellchecker: lowercase each word and keep
those the dictionary does not know, as a set. -/
def spell_unknown (sp : SpellChecker) (words : List String) : List String :=
  eraseDupsFirst ((words.map pyLower).filter (fun w => !sp.known w))

/-- Python `int(s)` as Flask's `type=int` converter uses it: optional
surrounding whitespace, optional sign, then decimal digits; `none` on
anything else (the converter then falls back to its default). -/
def parsePyIntDigits (l : List Char) : Option Nat :=
  if l.isEmpty then none
  else if l.all Char.isDigit then
    some (l.foldl (fun acc c => acc * 10 + (c.toNat - Char.toNat '0')) 0)
  else none

/-- Python `str.strip()` on a character list. -/
def pyTrim (l : List Char) : List Char :=
  ((l.dropWhile Char.isWhitespace).reverse.dropWhile Char.isWhitespace).reverse

def parsePyInt (s : String) : Option Int :=
  match pyTrim s.data with
  | '-' :: rest => (parsePyIntDigits rest).map (fun n => -(n : Int))
  | '+' :: rest => (parsePyIntDigits rest).map (fun n => (n : Int))
  | t => (parsePyIntDigits t).map (fun n => (n : Int))

/-- Python falsiness of `request.form.get('text')`: the field is missing
(`None`) or the empty string. -/
def formFalsy : Option String → Bool
  | none => true
  | some s => s.data.isEmpty

/-- Flask `request.form.get(key, 0, type=int)`: 0 when the field is missing
or not an integer literal, the parsed integer otherwise. -/
def formGetInt : Option String → Int
  | none => 0
  | some s => (parsePyInt s).getD 0

/-- Relation behind `order_by(Essay.timestamp.desc())`: earlier element has
the later (or equal) timestamp. -/
abbrev tsGe (a b : Essay) : Prop := b.timestamp ≤ a.timestamp

instance : DecidableRel tsGe := fun _ _ => Int.decLe _ _

instance : IsTotal Essay tsGe := ⟨fun a b => le_total b.timestamp a.timestamp⟩

instance : IsTrans Essay tsGe := ⟨fun _ _ _ h1 h2 => le_trans h2 h1⟩

/-- `order_by(Essay.timestamp.desc())`: sort the filtered rows so timestamps
are descending. -/
def sortByTsDesc (l : List Essay) : List Essay := List.insertionSort tsGe l

/-- The word-by-word correction block of the `index` route
(src/app.py lines 48-65). -/
def indexCorrected (sp : SpellChecker) (original_text : String) : String :=
  let words := pySplit original_text
  let misspelled := spell_unknown sp words
  let corrected_words := words.map (fun word =>
    let clean_word := pySubClean word
    if pyLower clean_word ∈ misspelled then
      let correction := sp.correction (pyLower clean_word)
      if pyIstitle clean_word then pyTitle correction else correction
    else word)
  pyJoin " " corrected_words

/-- The word-by-word correction block of the `save_essay` route
(src/app.py lines 89-104). -/
def saveCorrected (sp : SpellChecker) (original_text : String) : String :=
  let words := pySplit original_text
  let misspelled := spell_unknown sp words
  let corrected_words := words.map (fun word =>
    let clean_word := pySubClean word
    if pyLower clean_word ∈ misspelled then
      let correction := sp.correction (pyLower clean_word)
      if pyIstitle clean_word then pyTitle correction else correction
    else word)
  pyJoin " " corrected_words

/-- POST branch of the `index` route: on falsy `text` it renders the page
(status 200) with the fixed error message as corrected text; otherwise it
renders original and corrected text. Result: (status, original, corrected). -/
def index_post (sp : SpellChecker) (text_field : Option String) :
    Nat × String × String :=
  if formFalsy text_field then (200, "", "Error: No text provided.")
  else
    let t := text_field.getD ""
    (200, t, indexCorrected sp t)

/-- The form fields the `/save` route reads. -/
structure SaveForm where
  text : Option String
  wordCount : Option String
  paragraphCount : Option String
  backspaceCount : Option String

/-- The `save_essay` route: parse the counters, reject falsy text with 400,
otherwise correct the text and append a new `Essay` row committed by the
database (fresh primary key `nextId`, insertion timestamp `now`).
Result: (status, the store after the request). -/
def save_essay (sp : SpellChecker) (store : List Essay) (now : Int)
    (nextId : Nat) (form : SaveForm) : Nat × List Essay :=
  let word_count := formGetInt form.wordCount
  let paragraph_count := formGetInt form.paragraphCount
  let backspace_count := formGetInt form.backspaceCount
  if formFalsy form.text then (400, store)
  else
    let t := form.text.getD ""
    let corrected_text := saveCorrected sp t
    let new_essay : Essay :=
      { id := nextId
        original_text := t
        corrected_text := corrected_text
        timestamp := now
        word_count := word_count
        paragraph_count := paragraph_count
        backspace_count := backspace_count }
    (200, store ++ [new_essay])

/-- `Essay.query.get(essay_id)`: primary-key lookup. -/
def getById (store : List Essay) (essay_id : Nat) : Option Essay :=
  store.find? (fun e => e.id == essay_id)

/-- Relation behind `Counter.most_common()`: larger count first; the sort
is stable, so equal counts keep insertion order. -/
abbrev cntGe (a b : String × Nat) : Prop := b.2 ≤ a.2

instance : DecidableRel cntGe := fun _ _ => Nat.decLe _ _

instance : IsTotal (String × Nat) cntGe := ⟨fun a b => le_total b.2 a.2⟩

instance : IsTrans (String × Nat) cntGe := ⟨fun _ _ _ h1 h2 => le_trans h2 h1⟩

/-- `Counter(l).most_common()`: count each distinct element of `l`
(insertion order) and sort by count descending, stably. -/
def counterMostCommon (l : List String) : List (String × Nat) :=
  List.insertionSort cntGe ((eraseDupsFirst l).map (fun k => (k, l.count k)))

/-- The `analyze_essay` route: 404 on unknown id; otherwise tokenize the
lowercased original text, take the set of unknown words, and rank it with
`Counter(...).most_common()` — the `Counter` is built over the set
`misspelled_words`, exactly as src/app.py line 133 does. -/
def analyze_essay (sp : SpellChecker) (store : List Essay) (essay_id : Nat) :
    Nat × Option (List (String × Nat)) :=
  match getById store essay_id with
  | none => (404, none)
  | some essay =>
    let words := findWords (pyLower essay.original_text)
    let misspelled_words := spell_unknown sp words
    let most_common_errors := counterMostCommon misspelled_words
    (200, some most_common_errors)

/-- Core of the `history` route, after `minutes` has been parsed: the
sentinel -1 selects rows strictly older than 60 minutes, every other value
selects rows with `timestamp >= now - minutes`; both ordered by timestamp
descending. -/
def listSince (store : List Essay) (now : Int) (minutes : Int) : List Essay :=
  if minutes = -1 then
    sortByTsDesc (store.filter (fun e => decide (e.timestamp < now - 60)))
  else
    sortByTsDesc (store.filter (fun e => decide (now - minutes ≤ e.timestamp)))

/-- The `history` route including query parsing: missing parameter means
"60", a non-integer value falls back to 60 via the `ValueError` handler. -/
def history (sp_store : List Essay) (now : Int) (minutesParam : Option String) :
    List Essay :=
  let minutes := (parsePyInt (minutesParam.getD "60")).getD 60
  listSince sp_store now minutes

/-- The HTML document built by `download_pdf` and handed to the PDF backend. -/
def pdfHtml (essay : Essay) : String :=
  "\n    <!DOCTYPE html><html><head><title>Corrected Essay</title>\n    <style>body \x7b font-family: sans-serif; \x7d</style></head>\n    <body><h2>Corrected Essay</h2><p>" ++
    essay.corrected_text ++
    "</p><hr>\n    <p><strong>Original Text:</strong></p><p>" ++
    essay.original_text ++
    "</p>\n    </body></html>\n    "

/-- The `download_pdf` route: 404 on unknown id, in which case the PDF
backend is never invoked (document component `none`); otherwise the rendered
document (modelled by its HTML source, the backend being external). -/
def download_pdf (store : List Essay) (essay_id : Nat) : Nat × Option String :=
  match getById store essay_id with
  | none => (404, none)
  | some essay => (200, some (pdfHtml essay))

/-- Concrete dictionary engine used for witnesses and counterexamples: a
small dictionary plus the classic correction teh → the. -/
def dsp : SpellChecker where
  known := fun w => ["the", "cat", "hello", "world", "goes"].contains w
  correction := fun w => if w = "teh" then "the" else w

/-- Fixture row: saved 10 minutes before the reference instant 100. -/
def essA : Essay :=
  { id := 1, original_text := "hello", corrected_text := "hello",
    timestamp := 90, word_count := 0, paragraph_count := 0, backspace_count := 0 }

/-- Fixture row: saved 90 minutes before the reference instant 100. -/
def essB : Essay :=
  { id := 2, original_text := "world", corrected_text := "world",
    timestamp := 10, word_count := 0, paragraph_count := 0, backspace_count := 0 }

/-- Fixture row whose original text repeats a misspelled word. -/
def essTeh : Essay :=
  { id := 1, original_text := "Teh teh cat", corrected_text := "the the cat",
    timestamp := 90, word_count := 0, paragraph_count := 0, backspace_count := 0 }

/-- Primary-key lookup after an append: when no existing row carries id `i`
and the appended row does, `find?` returns the appended row. -/
theorem find?_id_append (l : List Essay) (e : Essay) (i : Nat)
    (h : ∀ x ∈ l, x.id ≠ i) (he : e.id = i) :
    (l ++ [e]).find? (fun x => x.id == i) = some e := by
  induction l with
  | nil => simp [List.find?, he]
  | cons a as ih =>
    have ha : ¬ a.id = i := h a (List.mem_cons_self a as)
    simp only [List.cons_append, List.find?, beq_iff_eq]
    rw [show (a.id == i) = false by simp [ha]]
    exact ih (fun x hx => h x (List.mem_cons_of_mem a hx))

/-- Membership in a history result: sorting is a permutation of the filter. -/
theorem mem_sortByTsDesc (l : List Essay) (e : Essay) :
    e ∈ sortByTsDesc l ↔ e ∈ l := by
  unfold sortByTsDesc
  exact (List.perm_insertionSort tsGe l).mem_iff

/-- Claim C5: with the sentinel `windowMinutes = -1`, the history query
returns exactly the stored essays whose timestamp is strictly earlier than
`now - 60` minutes. -/
theorem history_sentinel_returns_older_than_hour
    (store : List Essay) (now : Int) (e : Essay) :
    e ∈ listSince store now (-1) ↔ e ∈ store ∧ e.timestamp < now - 60 := by
  unfold listSince
  rw [if_pos rfl, mem_sortByTsDesc]
  simp [List.mem_filter]

/-- Claim C6: for non-negative `windowMinutes`, the history query returns
exactly the essays with `timestamp ≥ now - windowMinutes`, in timestamp
descending order. -/
theorem history_nonneg_window_filter_and_desc
    (store : List Essay) (now m : Int) (hm : 0 ≤ m) :
    (∀ e, e ∈ listSince store now m ↔ e ∈ store ∧ now - m ≤ e.timestamp) ∧
    (listSince store now m).Pairwise (fun a b => b.timestamp ≤ a.timestamp) := by
  have hne : m ≠ -1 := by omega
  unfold listSince
  rw [if_neg hne]
  constructor
  · intro e
    rw [mem_sortByTsDesc]
    simp [List.mem_filter]
  · exact List.sorted_insertionSort tsGe _

theorem history_nonneg_window_filter_and_desc_witness :
    (0 : Int) ≤ 60 ∧
    ((∀ e, e ∈ listSince [essA, essB] 100 60 ↔
        e ∈ [essA, essB] ∧ 100 - 60 ≤ e.timestamp) ∧
      (listSince [essA, essB] 100 60).Pairwise
        (fun a b => b.timestamp ≤ a.timestamp)) :=
  ⟨by decide, history_nonneg_window_filter_and_desc [essA, essB] 100 60 (by decide)⟩

/-- Claim C1 counterexample: with `minutes = -5` the history query returns
nothing for a store whose single essay is 10 minutes old, while
`minutes = 60` returns that essay — the two calls differ. -/
theorem history_negative_window_ne_sixty_cex :
    listSince [essA] 100 (-5) ≠ listSince [essA] 100 60 := by decide

/-- Claim C1 (amended): a negative `windowMinutes` other than -1 is used
literally — the result is exactly the essays with
`timestamp ≥ now - windowMinutes`, a cutoff strictly in the future, not the
60-minute window. -/
theorem history_negative_window_uses_literal_cutoff
    (store : List Essay) (now m : Int) (hm : m < 0) (hne : m ≠ -1) :
    (∀ e, e ∈ listSince store now m ↔ e ∈ store ∧ now - m ≤ e.timestamp) ∧
    now < now - m := by
  refine ⟨?_, by omega⟩
  unfold listSince
  rw [if_neg hne]
  intro e
  rw [mem_sortByTsDesc]
  simp [List.mem_filter]

theorem history_negative_window_uses_literal_cutoff_witness :
    (-5 : Int) < 0 ∧ ((-5 : Int) ≠ -1) ∧
    ((∀ e, e ∈ listSince [essA] 100 (-5) ↔
        e ∈ [essA] ∧ 100 - (-5) ≤ e.timestamp) ∧
      (100 : Int) < 100 - (-5)) :=
  ⟨by decide, by decide,
    history_negative_window_uses_literal_cutoff [essA] 100 (-5)
      (by decide) (by decide)⟩

/-- Claim C2 (code bug): the analysis route builds its `Counter` over the
set `misspelled_words`, so every distinct misspelled token gets count 1 —
here the token teh occurs twice in the original text, yet the reported
count is 1. -/
theorem analyze_counter_over_set_counts_one :
    analyze_essay dsp [essTeh] 1 = (200, some [("teh", 1)]) ∧
    (findWords (pyLower essTeh.original_text)).count "teh" = 2 := by decide

/-- Claim C3 counterexample: a POST to `/` without a `text` field renders
the page with status 200, not 400. -/
theorem index_missing_text_cex :
    index_post dsp none = (200, "", "Error: No text provided.") ∧
    (index_post dsp none).1 ≠ 400 := by decide

/-- Claim C3 (amended): a POST to `/` whose `text` field is missing or empty
renders the form page with HTTP 200 and the fixed corrected-text message
"Error: No text provided." — no 400 is produced. -/
theorem index_missing_text_renders_error_page
    (sp : SpellChecker) (tf : Option String) (h : formFalsy tf = true) :
    index_post sp tf = (200, "", "Error: No text provided.") := by
  simp [index_post, h]

theorem index_missing_text_renders_error_page_witness :
    formFalsy none = true ∧
    index_post dsp none = (200, "", "Error: No text provided.") :=
  ⟨rfl, index_missing_text_renders_error_page dsp none rfl⟩

/-- Claim C4: a POST to `/save` whose `text` field is missing or empty gets
status 400 and leaves the store exactly as it was. -/
theorem save_missing_text_rejected_store_unchanged
    (sp : SpellChecker) (store : List Essay) (now : Int) (nextId : Nat)
    (form : SaveForm) (h : formFalsy form.text = true) :
    save_essay sp store now nextId form = (400, store) := by
  simp [save_essay, h]

theorem save_missing_text_rejected_store_unchanged_witness :
    formFalsy (some "") = true ∧
    save_essay dsp [essA] 100 2 ⟨some "", some "3", none, none⟩ = (400, [essA]) :=
  ⟨rfl, save_missing_text_rejected_store_unchanged dsp [essA] 100 2
    ⟨some "", some "3", none, none⟩ rfl⟩

/-- Store component of a successful save: the old rows followed by the new
committed row. -/
theorem save_essay_snd
    (sp : SpellChecker) (store : List Essay) (now : Int) (nextId : Nat)
    (form : SaveForm) (htext : formFalsy form.text = false) :
    (save_essay sp store now nextId form).2 =
      store ++ [{ id := nextId
                  original_text := form.text.getD ""
                  corrected_text := saveCorrected sp (form.text.getD "")
                  timestamp := now
                  word_count := formGetInt form.wordCount
                  paragraph_count := formGetInt form.paragraphCount
                  backspace_count := formGetInt form.backspaceCount }] := by
  simp [save_essay, htext]

/-- Claim C7: after a successful save under a fresh primary key, `getById`
on that key returns a record whose text fields and counters are exactly the
values the save persisted. -/
theorem save_then_getById_roundtrip
    (sp : SpellChecker) (store : List Essay) (now : Int) (nextId : Nat)
    (form : SaveForm) (htext : formFalsy form.text = false)
    (hfresh : ∀ e ∈ store, e.id ≠ nextId) :
    getById (save_essay sp store now nextId form).2 nextId =
      some { id := nextId
             original_text := form.text.getD ""
             corrected_text := saveCorrected sp (form.text.getD "")
             timestamp := now
             word_count := formGetInt form.wordCount
             paragraph_count := formGetInt form.paragraphCount
             backspace_count := formGetInt form.backspaceCount } := by
  rw [save_essay_snd sp store now nextId form htext]
  unfold getById
  exact find?_id_append store _ nextId hfresh rfl

theorem save_then_getById_roundtrip_witness :
    formFalsy (some "the cat") = false ∧
    (∀ e ∈ ([] : List Essay), e.id ≠ 1) ∧
    getById (save_essay dsp [] 100 1 ⟨some "the cat", some "6", some "1", some "2"⟩).2 1 =
      some { id := 1
             original_text := (some "the cat").getD ""
             corrected_text := saveCorrected dsp ((some "the cat" : Option String).getD "")
             timestamp := 100
             word_count := formGetInt (some "6")
             paragraph_count := formGetInt (some "1")
             backspace_count := formGetInt (some "2") } :=
  ⟨rfl, by simp,
    save_then_getById_roundtrip dsp [] 100 1
      ⟨some "the cat", some "6", some "1", some "2"⟩ rfl (by simp)⟩

/-- Claim C8: downloading a PDF for an id with no stored essay answers 404
and the document component is `none` — the renderer branch is never taken. -/
theorem download_unknown_id_404_no_render
    (store : List Essay) (essay_id : Nat) (h : getById store essay_id = none) :
    download_pdf store essay_id = (404, none) := by
  unfold download_pdf
  rw [h]

theorem download_unknown_id_404_no_render_witness :
    getById [] 1 = none ∧ download_pdf [] 1 = (404, none) :=
  ⟨rfl, download_unknown_id_404_no_render [] 1 rfl⟩

/-- Claim C9 counterexample: submitting `wordCount = "-5"` persists a record
with negative `word_count` — no non-negativity is enforced. -/
theorem save_negative_word_count_cex :
    (save_essay dsp [] 100 1 ⟨some "the cat", some "-5", none, none⟩).2 =
      [{ id := 1, original_text := "the cat", corrected_text := "the cat",
         timestamp := 100, word_count := -5, paragraph_count := 0,
         backspace_count := 0 }] ∧
    ¬ (0 : Int) ≤ -5 := by decide

/-- Claim C9 (amended): the persisted counters are exactly the integers
parsed from the client form fields (0 when missing or unparsable); the
store accepts them unvalidated, so a negative client value is stored as-is. -/
theorem save_persists_parsed_counts_unvalidated
    (sp : SpellChecker) (store : List Essay) (now : Int) (nextId : Nat)
    (form : SaveForm) (htext : formFalsy form.text = false) :
    save_essay sp store now nextId form =
      (200, store ++ [{ id := nextId
                        original_text := form.text.getD ""
                        corrected_text := saveCorrected sp (form.text.getD "")
                        timestamp := now
                        word_count := formGetInt form.wordCount
                        paragraph_count := formGetInt form.paragraphCount
                        backspace_count := formGetInt form.backspaceCount }]) := by
  simp [save_essay, htext]

theorem save_persists_parsed_counts_unvalidated_witness :
    formFalsy (some "the cat") = false ∧
    save_essay dsp [essA] 100 2 ⟨some "the cat", some "-7", some "2", none⟩ =
      (200, [essA] ++ [{ id := 2
                         original_text := (some "the cat").getD ""
                         corrected_text := saveCorrected dsp ((some "the cat" : Option String).getD "")
                         timestamp := 100
                         word_count := formGetInt (some "-7")
                         paragraph_count := formGetInt (some "2")
                         backspace_count := formGetInt none }]) :=
  ⟨rfl, save_persists_parsed_counts_unvalidated dsp [essA] 100 2
    ⟨some "the cat", some "-7", some "2", none⟩ rfl⟩

/-- Claim C10: the inline word-by-word correction block of the `index` route
and the one of the `save_essay` route compute the same corrected text for
every engine and every input text. -/
theorem index_save_correction_blocks_agree
    (sp : SpellChecker) (t : String) : indexCorrected sp t = saveCorrected sp t := rfl
